import Mathlib

/-!
Verification of the Kibana fragments: the Hapi pre-routing interceptor
adapter (`adoptToHapiOnRequest`), the alerting `TaskRunnerFactory`, and the
timeseries `fetchFields` helper, shallowly embedded in Lean.
-/

set_option maxRecDepth 2000

/- ### Pre-routing interceptor adapter (adoptToHapiOnRequest) -/

/-- Modelled from the spec: `KibanaResponse` is imported from `../router`,
which is outside the provided sources.  The spec describes it as a
"fully-formed response object" whose status and body the adapter must
preserve, so it is modelled as a status/body record. -/
structure KibanaResponse where
  status : Nat
  body : String
deriving DecidableEq, Repr

/-- A native (Hapi) response, as produced by the response adapter. -/
structure NativeResponse where
  status : Nat
  body : String
deriving DecidableEq, Repr

/-- Modelled from the spec: `HapiResponseAdapter.handle` lives in `../router`,
outside the provided sources.  The spec says the response adapter converts
"an internal explicit-response value into the native response type"
with status and body preserved. -/
def HapiResponseAdapter.handle (response : KibanaResponse) : NativeResponse :=
  { status := response.status, body := response.body }

/-- Modelled from the spec: `HapiResponseAdapter.toInternalError` lives in
`../router`, outside the provided sources.  The spec says the response
adapter can "produce a generic internal-error native response". -/
def HapiResponseAdapter.toInternalError : NativeResponse :=
  { status := 500, body := "An internal server error occurred." }

/-- The tagged result type of an OnPreRouting handler: the `Next` and
`RewriteUrl` interfaces discriminated by the `ResultType` enum. -/
inductive OnPreRoutingResult where
  | next
  | rewriteUrl (url : String)
deriving DecidableEq, Repr

/-- Factory `preRoutingResult.next()`: builds the continue-result. -/
def preRoutingResult.next : OnPreRoutingResult :=
  OnPreRoutingResult.next

/-- Factory `preRoutingResult.rewriteUrl(url)`: builds the rewrite-result
carrying the target URL. -/
def preRoutingResult.rewriteUrl (url : String) : OnPreRoutingResult :=
  OnPreRoutingResult.rewriteUrl url

/-- Type guard `preRoutingResult.isNext`: checks the tag against
`ResultType.next`. -/
def preRoutingResult.isNext : OnPreRoutingResult → Bool
  | OnPreRoutingResult.next => true
  | _ => false

/-- Type guard `preRoutingResult.isRewriteUrl`: checks the tag against
`ResultType.rewriteUrl`. -/
def preRoutingResult.isRewriteUrl : OnPreRoutingResult → Bool
  | OnPreRoutingResult.rewriteUrl _ => true
  | _ => false

/-- The URL carried by a rewrite-result, if any. -/
def OnPreRoutingResult.carriedUrl : OnPreRoutingResult → Option String
  | OnPreRoutingResult.next => none
  | OnPreRoutingResult.rewriteUrl url => some url

/-- The runtime value an awaited handler invocation produces.  The adapter
recognizes, in order, a `KibanaResponse` (via `instanceof`), a
continue-result, and a rewrite-result; every other value falls through to
the `throw new Error(...)` branch, so it is modelled by `unrecognized`
carrying the string rendering used in the error message interpolation. -/
inductive HandlerResult where
  | response (response : KibanaResponse)
  | routing (result : OnPreRoutingResult)
  | unrecognized (rendered : String)
deriving DecidableEq, Repr

/-- Per-request scratch state `request.app as KibanaRequestState`: the
optional URL recorded before the first rewrite. -/
structure KibanaRequestState where
  rewrittenUrl : Option String
deriving DecidableEq, Repr

/-- The mutable parts of the native Hapi request the adapter touches:
the parsed URL the server routes on (read as `request.url`, written via
`request.setUrl`), the raw underlying URL field `request.raw.req.url`,
and the per-request app state. -/
structure Request where
  url : String
  rawReqUrl : String
  app : KibanaRequestState
deriving DecidableEq, Repr

/-- The character-by-character rebuild loop
`let urlCopy = ''; for (let i = 0; i < url.length; i++) urlCopy += url[i]`:
a left fold over the characters of the URL in index order, appending each
to an initially empty accumulator. -/
def stringCopy (url : String) : String :=
  url.data.foldl (fun urlCopy c => urlCopy.push c) ""

/-- The message of the error thrown for an unrecognized handler result,
with the value's string rendering interpolated. -/
def unexpectedResultError (rendered : String) : String :=
  "Unexpected result from OnPreRouting. Expected OnPreRoutingResult or KibanaResponse, but given: "
    ++ rendered ++ "."

/-- A Hapi lifecycle return value: either the `responseToolkit.continue`
proceed signal or a native response. -/
inductive LifecycleReturnValue where
  | continueSignal
  | response (response : NativeResponse)
deriving DecidableEq, Repr

/-- Everything observable after one run of the adapter's returned lifecycle
function: the (possibly mutated) request, the errors passed to
`log.error`, and the lifecycle return value. -/
structure InterceptOutput where
  request : Request
  loggedErrors : List String
  value : LifecycleReturnValue
deriving DecidableEq, Repr

/-- The lifecycle function returned by `adoptToHapiOnRequest(fn, log)`.
`outcome` is the awaited result of
`fn(KibanaRequest.from(request), lifecycleResponseFactory, toolkit)`:
`Except.error e` when the handler throws synchronously or its promise
rejects (`e` being the error), `Except.ok r` otherwise.  Errors are
modelled by their string rendering. -/
def interceptPreRoutingRequest (outcome : Except String HandlerResult)
    (request : Request) : InterceptOutput :=
  match outcome with
  -- catch (error) { log.error(error); return hapiResponseAdapter.toInternalError(); }
  | Except.error error =>
      { request := request
        loggedErrors := [error]
        value := LifecycleReturnValue.response HapiResponseAdapter.toInternalError }
  | Except.ok result =>
      match result with
      -- if (result instanceof KibanaResponse) return hapiResponseAdapter.handle(result);
      | HandlerResult.response kibanaResponse =>
          { request := request
            loggedErrors := []
            value := LifecycleReturnValue.response (HapiResponseAdapter.handle kibanaResponse) }
      -- if (preRoutingResult.isNext(result)) return responseToolkit.continue;
      | HandlerResult.routing OnPreRoutingResult.next =>
          { request := request
            loggedErrors := []
            value := LifecycleReturnValue.continueSignal }
      -- if (preRoutingResult.isRewriteUrl(result)) { ... }
      | HandlerResult.routing (OnPreRoutingResult.rewriteUrl url) =>
          -- appState.rewrittenUrl = appState.rewrittenUrl ?? request.url;
          let recordedUrl := request.app.rewrittenUrl.getD request.url
          -- the character-by-character copy handed to request.setUrl(urlCopy)
          let urlCopy := stringCopy url
          { request :=
              { url := urlCopy
                -- request.raw.req.url = url;
                rawReqUrl := url
                app := { rewrittenUrl := some recordedUrl } }
            loggedErrors := []
            value := LifecycleReturnValue.continueSignal }
      -- throw new Error(...): caught by the surrounding try/catch, which
      -- logs it and returns the internal-error response.
      | HandlerResult.unrecognized rendered =>
          { request := request
            loggedErrors := [unexpectedResultError rendered]
            value := LifecycleReturnValue.response HapiResponseAdapter.toInternalError }

/- ### TaskRunnerFactory -/

/-- The `RunContext` destructured by `create` for its `taskInstance`. -/
structure RunContext (TaskInstance : Type) where
  taskInstance : TaskInstance
deriving DecidableEq, Repr

/-- The `TaskRunner` built by `create`: `new TaskRunner(alertType,
taskInstance, this.taskRunnerContext!)`.  The context type is kept
abstract since the factory only stores and forwards it. -/
structure TaskRunner (Ctx AlertType TaskInstance : Type) where
  alertType : AlertType
  taskInstance : TaskInstance
  taskRunnerContext : Ctx
deriving DecidableEq, Repr

/-- The factory's private mutable fields. -/
structure TaskRunnerFactory (Ctx : Type) where
  isInitialized : Bool
  taskRunnerContext : Option Ctx
deriving DecidableEq, Repr

/-- A freshly constructed factory: `isInitialized = false`, no context. -/
def TaskRunnerFactory.fresh {Ctx : Type} : TaskRunnerFactory Ctx :=
  { isInitialized := false, taskRunnerContext := none }

/-- `initialize(taskRunnerContext)`: throws if already initialized
(returning the state unchanged), otherwise records the context and sets
the flag. -/
def TaskRunnerFactory.initialize {Ctx : Type} (f : TaskRunnerFactory Ctx)
    (taskRunnerContext : Ctx) : Except String Unit × TaskRunnerFactory Ctx :=
  if f.isInitialized then
    (Except.error "TaskRunnerFactory already initialized", f)
  else
    (Except.ok (), { isInitialized := true, taskRunnerContext := some taskRunnerContext })

/-- `create(alertType, { taskInstance })`: throws if not initialized,
otherwise builds a `TaskRunner` from the stored context.  The TS non-null
assertion `this.taskRunnerContext!` is modelled by `Option.getD default`. -/
def TaskRunnerFactory.create {Ctx AlertType TaskInstance : Type} [Inhabited Ctx]
    (f : TaskRunnerFactory Ctx) (alertType : AlertType)
    (runContext : RunContext TaskInstance) :
    Except String (TaskRunner Ctx AlertType TaskInstance) :=
  if !f.isInitialized then
    Except.error "TaskRunnerFactory not initialized"
  else
    Except.ok
      { alertType := alertType
        taskInstance := runContext.taskInstance
        taskRunnerContext := f.taskRunnerContext.getD default }

/- ### fetchFields -/

/-- A JS error as observed by the catch block: its `name` and `message`. -/
structure JsErrorValue where
  name : String
  message : String
deriving DecidableEq, Repr

/-- A danger toast shown via `notifications.toasts.addDanger`. -/
structure Toast where
  title : String
  text : String
deriving DecidableEq, Repr

/-- The `indexPatterns` argument: either already an array of patterns or a
single non-array value. -/
inductive IndexPatternsArg where
  | array (patterns : List String)
  | single (pattern : String)
deriving DecidableEq, Repr

/-- `Array.isArray(indexPatterns) ? indexPatterns : [indexPatterns]`. -/
def toPatternsList : IndexPatternsArg → List String
  | IndexPatternsArg.array patterns => patterns
  | IndexPatternsArg.single pattern => [pattern]

/-- The two shapes `fetchFields` can return: the success object mapping
each pattern to its fetched fields (modelled as an association list in
pattern order, as built by the reduce), or the bare `[]` returned after
the catch block. -/
inductive FetchFieldsResult (F : Type) where
  | fieldsByPattern (entries : List (String × F))
  | emptyArray
deriving DecidableEq, Repr

/-- `Promise.all` over already-settled outcomes: succeeds with the list of
values when all succeed, otherwise rejects with the first (in list order)
rejection. -/
def promiseAll {E A : Type} : List (Except E A) → Except E (List A)
  | [] => Except.ok []
  | Except.error e :: _ => Except.error e
  | Except.ok a :: rest => (promiseAll rest).map (fun others => a :: others)

/-- The i18n default message of the error toast title. -/
def loadIndexPatternFieldsErrorTitle : String :=
  "Unable to load index_pattern fields"

/-- `fetchFields(indexPatterns, signal)`.  `httpGet` models
`getCoreStart().http.get(ROUTES.FIELDS, { query: { index: pattern }, signal })`
as a settled outcome per pattern.  The result pairs the returned value
with the list of danger toasts shown. -/
def fetchFields {F : Type} (httpGet : String → Except JsErrorValue F)
    (indexPatterns : IndexPatternsArg) : FetchFieldsResult F × List Toast :=
  let patterns := toPatternsList indexPatterns
  match promiseAll (patterns.map httpGet) with
  | Except.ok indexFields =>
      -- patterns.reduce((acc, pattern, index) => ({ ...acc, [pattern]: indexFields[index] }), {})
      (FetchFieldsResult.fieldsByPattern (patterns.zip indexFields), [])
  | Except.error error =>
      (FetchFieldsResult.emptyArray,
        if error.name ≠ "AbortError" then
          [{ title := loadIndexPatternFieldsErrorTitle, text := error.message }]
        else
          [])

/- ### Handler-outcome abbreviations -/

/-- The awaited handler returned `toolkit.rewriteUrl(url)`. -/
def rewriteOutcome (url : String) : Except String HandlerResult :=
  Except.ok (HandlerResult.routing (OnPreRoutingResult.rewriteUrl url))

/-- The awaited handler returned `toolkit.next()`. -/
def nextOutcome : Except String HandlerResult :=
  Except.ok (HandlerResult.routing OnPreRoutingResult.next)

/-- The awaited handler returned an explicit `KibanaResponse`. -/
def responseOutcome (response : KibanaResponse) : Except String HandlerResult :=
  Except.ok (HandlerResult.response response)

/- ### Helper lemmas -/

/-- Appending characters one by one onto an accumulator concatenates them. -/
theorem foldl_push_data (l : List Char) (acc : String) :
    (l.foldl (fun s c => s.push c) acc).data = acc.data ++ l := by
  induction l generalizing acc with
  | nil => simp
  | cons c cs ih =>
      rw [List.foldl_cons, ih]
      cases acc
      simp [String.push]

/-- The character-by-character rebuild returns an equal string. -/
theorem stringCopy_eq (url : String) : stringCopy url = url := by
  apply String.ext
  simpa [stringCopy] using foldl_push_data url.data ""

/-- When every pattern's fetch succeeds with `g`, `Promise.all` over the
mapped fetches succeeds with the mapped values. -/
theorem promiseAll_map_ok {F : Type} (httpGet : String → Except JsErrorValue F)
    (g : String → F) :
    ∀ patterns : List String, (∀ p ∈ patterns, httpGet p = Except.ok (g p)) →
      promiseAll (patterns.map httpGet) = Except.ok (patterns.map g) := by
  intro patterns
  induction patterns with
  | nil => intro _; rfl
  | cons p ps ih =>
      intro h
      have hp := h p (by simp)
      have hps := ih (fun q hq => h q (by simp [hq]))
      simp [promiseAll, hp, hps, Except.map]

/- ### Claim theorems -/

/-- C1: when the awaited handler result is a rewrite carrying URL `u`, the
lifecycle function leaves the request's effective URL equal to `u`, and the
per-request recorded original URL equal to the URL the request had before
any rewrite in this request: a first rewrite records the pre-rewrite URL,
and a second rewrite in the same request still updates the effective URL
but leaves the recorded original unchanged. -/
theorem c1_rewrite_updates_url_and_records_first_original
    (req : Request) (u v : String) :
    (interceptPreRoutingRequest (rewriteOutcome u) req).request.url = u
    ∧ (interceptPreRoutingRequest (rewriteOutcome u) req).request.app.rewrittenUrl
        = some (req.app.rewrittenUrl.getD req.url)
    ∧ (interceptPreRoutingRequest (rewriteOutcome v)
        (interceptPreRoutingRequest (rewriteOutcome u) req).request).request.url = v
    ∧ (interceptPreRoutingRequest (rewriteOutcome v)
        (interceptPreRoutingRequest (rewriteOutcome u) req).request).request.app.rewrittenUrl
        = some (req.app.rewrittenUrl.getD req.url) := by
  refine ⟨?_, rfl, ?_, rfl⟩ <;>
    simp [interceptPreRoutingRequest, rewriteOutcome, stringCopy_eq]

/-- C2: when the handler throws synchronously or its promise rejects with
error `e`, the lifecycle function does not propagate the exception: it logs
exactly one error record, namely `e`, returns the generic internal-error
native response, and leaves the request untouched. -/
theorem c2_thrown_handler_logged_once_and_internal_error
    (e : String) (req : Request) :
    interceptPreRoutingRequest (Except.error e) req =
      { request := req
        loggedErrors := [e]
        value := LifecycleReturnValue.response HapiResponseAdapter.toInternalError } := rfl

/-- C3: when the awaited handler result is recognized neither as a
continue-result, nor a rewrite-result, nor an explicit response, the
observable behaviour coincides with the throw/reject case: the same output
as a handler throwing the constructed error, with exactly one logged error
and the generic internal-error native response. -/
theorem c3_unrecognized_result_behaves_like_throw (s : String) (req : Request) :
    interceptPreRoutingRequest (Except.ok (HandlerResult.unrecognized s)) req
      = interceptPreRoutingRequest (Except.error (unexpectedResultError s)) req
    ∧ (interceptPreRoutingRequest (Except.ok (HandlerResult.unrecognized s)) req).loggedErrors.length = 1
    ∧ (interceptPreRoutingRequest (Except.ok (HandlerResult.unrecognized s)) req).value
        = LifecycleReturnValue.response HapiResponseAdapter.toInternalError :=
  ⟨rfl, rfl, rfl⟩

/-- C4: when the awaited handler result is the continue-result, the
lifecycle function returns the native proceed signal and leaves the parsed
URL, the raw URL and the recorded-original-URL state unchanged (and logs
nothing). -/
theorem c4_next_proceeds_with_request_unchanged (req : Request) :
    interceptPreRoutingRequest nextOutcome req =
      { request := req
        loggedErrors := []
        value := LifecycleReturnValue.continueSignal } := rfl

/-- C5: when the awaited handler result is an explicit response object, the
lifecycle function returns the response adapter's native conversion of that
exact response, and that conversion preserves status and body. -/
theorem c5_explicit_response_converted (r : KibanaResponse) (req : Request) :
    (interceptPreRoutingRequest (responseOutcome r) req).value
      = LifecycleReturnValue.response (HapiResponseAdapter.handle r)
    ∧ (HapiResponseAdapter.handle r).status = r.status
    ∧ (HapiResponseAdapter.handle r).body = r.body :=
  ⟨rfl, rfl, rfl⟩

/-- C6: rewrites are atomic: for every handler outcome, either the request
is left entirely unchanged, or the outcome was a rewrite carrying some `u`
and all of the rewrite's effects are applied (parsed URL and raw URL both
equal `u`, original URL recorded) together with the proceed signal; in
particular no partial rewrite is ever paired with a successful proceed. -/
theorem c6_rewrite_is_atomic (outcome : Except String HandlerResult) (req : Request) :
    (interceptPreRoutingRequest outcome req).request = req
    ∨ (∃ u, outcome = rewriteOutcome u
        ∧ (interceptPreRoutingRequest outcome req).request.url = u
        ∧ (interceptPreRoutingRequest outcome req).request.rawReqUrl = u
        ∧ (interceptPreRoutingRequest outcome req).request.app.rewrittenUrl
            = some (req.app.rewrittenUrl.getD req.url)
        ∧ (interceptPreRoutingRequest outcome req).value
            = LifecycleReturnValue.continueSignal) := by
  match outcome with
  | Except.error e => exact Or.inl rfl
  | Except.ok (HandlerResult.response r) => exact Or.inl rfl
  | Except.ok (HandlerResult.routing OnPreRoutingResult.next) => exact Or.inl rfl
  | Except.ok (HandlerResult.routing (OnPreRoutingResult.rewriteUrl u)) =>
      exact Or.inr ⟨u, rfl, stringCopy_eq u, rfl, rfl, rfl⟩
  | Except.ok (HandlerResult.unrecognized s) => exact Or.inl rfl

/-- C7: the character-by-character rebuild loop reproduces the URL exactly,
so after a rewrite with URL `u` both the value passed to the URL-setter
(the request's parsed URL) and the raw URL field equal `u`. -/
theorem c7_rebuild_loop_preserves_url (u : String) :
    stringCopy u = u
    ∧ ∀ req : Request,
        (interceptPreRoutingRequest (rewriteOutcome u) req).request.url = u
        ∧ (interceptPreRoutingRequest (rewriteOutcome u) req).request.rawReqUrl = u := by
  refine ⟨stringCopy_eq u, fun req => ⟨?_, rfl⟩⟩
  simp [interceptPreRoutingRequest, rewriteOutcome, stringCopy_eq]

/-- C8: the toolkit factories produce exactly the two result variants and
the type guards discriminate them correctly and exclusively: `isNext` holds
of `next()` and `isRewriteUrl` does not, while for every `u`,
`isRewriteUrl` holds of `rewriteUrl(u)` (which carries exactly `u`) and
`isNext` does not. -/
theorem c8_factories_and_type_guards :
    preRoutingResult.isNext preRoutingResult.next = true
    ∧ preRoutingResult.isRewriteUrl preRoutingResult.next = false
    ∧ ∀ u : String,
        preRoutingResult.isRewriteUrl (preRoutingResult.rewriteUrl u) = true
        ∧ preRoutingResult.isNext (preRoutingResult.rewriteUrl u) = false
        ∧ (preRoutingResult.rewriteUrl u).carriedUrl = some u :=
  ⟨rfl, rfl, fun _ => ⟨rfl, rfl, rfl⟩⟩

/-- C9: the factory enforces at-most-once initialization: initializing a
fresh factory succeeds and records the context; initializing an
already-initialized factory throws with the documented message and leaves
the stored context unchanged; `create` before initialization throws with
the documented message; and `create` after initialization builds a
`TaskRunner` from the given alert type, the run context's task instance
and the recorded context. -/
theorem c9_task_runner_factory_at_most_once_init
    {Ctx AlertType TaskInstance : Type} [Inhabited Ctx]
    (ctx ctx2 : Ctx) (alertType : AlertType) (rc : RunContext TaskInstance) :
    TaskRunnerFactory.initialize TaskRunnerFactory.fresh ctx
      = (Except.ok (), { isInitialized := true, taskRunnerContext := some ctx })
    ∧ TaskRunnerFactory.initialize
        ({ isInitialized := true, taskRunnerContext := some ctx } : TaskRunnerFactory Ctx) ctx2
      = (Except.error "TaskRunnerFactory already initialized",
         { isInitialized := true, taskRunnerContext := some ctx })
    ∧ TaskRunnerFactory.create (TaskRunnerFactory.fresh : TaskRunnerFactory Ctx) alertType rc
      = Except.error "TaskRunnerFactory not initialized"
    ∧ TaskRunnerFactory.create
        ({ isInitialized := true, taskRunnerContext := some ctx } : TaskRunnerFactory Ctx)
        alertType rc
      = Except.ok
          { alertType := alertType
            taskInstance := rc.taskInstance
            taskRunnerContext := ctx } :=
  ⟨rfl, rfl, rfl, rfl⟩

/-- Zipping a list with its own map pairs each element with its image. -/
theorem zip_map_self {α β : Type} (g : α → β) (l : List α) :
    l.zip (l.map g) = l.map fun a => (a, g a) := by
  induction l with
  | nil => rfl
  | cons a as ih => simp [List.zip_cons_cons, ih]

/-- C10: `fetchFields` never rejects and behaves as follows: a non-array
argument is wrapped into a one-element list; when every pattern's fetch
succeeds, it returns the object pairing each pattern with the fields
fetched for it and shows no toast; when the fetches fail with error `e`,
it returns the bare empty array (a shape distinct from the success object)
and shows the danger toast exactly when `e` is not an AbortError — in
particular never for an AbortError. -/
theorem c10_fetch_fields_shapes_and_toasts {F : Type}
    (httpGet : String → Except JsErrorValue F) (g : String → F)
    (e : JsErrorValue) (p : String) (ps : List String) :
    fetchFields httpGet (IndexPatternsArg.single p)
      = fetchFields httpGet (IndexPatternsArg.array [p])
    ∧ ((∀ q ∈ ps, httpGet q = Except.ok (g q)) →
        fetchFields httpGet (IndexPatternsArg.array ps)
          = (FetchFieldsResult.fieldsByPattern (ps.map fun q => (q, g q)), []))
    ∧ (promiseAll (ps.map httpGet) = Except.error e →
        fetchFields httpGet (IndexPatternsArg.array ps)
          = (FetchFieldsResult.emptyArray,
             if e.name ≠ "AbortError" then
               [{ title := loadIndexPatternFieldsErrorTitle, text := e.message }]
             else []))
    ∧ (promiseAll (ps.map httpGet) = Except.error e → e.name = "AbortError" →
        (fetchFields httpGet (IndexPatternsArg.array ps)).2 = []) := by
  refine ⟨rfl, fun hok => ?_, fun herr => ?_, fun herr habort => ?_⟩
  · have hall := promiseAll_map_ok httpGet g ps hok
    simp only [fetchFields, toPatternsList, hall]
    rw [zip_map_self]
  · simp only [fetchFields, toPatternsList, herr]
  · simp [fetchFields, toPatternsList, herr, habort]

/-- Witness for C10: concrete instances discharging the hypotheses — all
fetches succeeding with the pattern's length, and a single fetch rejecting
with an AbortError (which produces the empty array and no toast). -/
theorem c10_fetch_fields_witness :
    fetchFields (fun q => Except.ok q.length) (IndexPatternsArg.single "ab")
      = (FetchFieldsResult.fieldsByPattern [("ab", 2)], [])
    ∧ fetchFields (fun _ => (Except.error { name := "AbortError", message := "aborted" } :
          Except JsErrorValue Nat)) (IndexPatternsArg.array ["a"])
      = (FetchFieldsResult.emptyArray, []) := by
  constructor
  · have h := c10_fetch_fields_shapes_and_toasts (fun q => Except.ok q.length)
      String.length { name := "x", message := "x" } "ab" ["ab"]
    rw [h.1]
    simpa using h.2.1 (fun q _ => rfl)
  · have h := c10_fetch_fields_shapes_and_toasts
      (fun _ => (Except.error { name := "AbortError", message := "aborted" } :
        Except JsErrorValue Nat))
      (fun _ => 0) { name := "AbortError", message := "aborted" } "a" ["a"]
    have h2 := h.2.2.1 rfl
    simpa using h2
